import Mathlib

/-!
Verification of the CZK cloud-drive driver (src/drivers/czk) against its
natural-language specification.  The Go source is shallowly embedded:

* JSON bodies decoded into `map[string]interface{}` become the inductive
  `Json` (Go numbers are `float64`; we carry them as rationals and model the
  `int64(x)` conversion by truncation toward zero, as Go does).
* The per-operation envelope error checks (`if code, ok := m["code"].(float64);
  ok && int64(code) != 200 { ... }`) become `Option (Int × String)` valued
  functions, one per operation, transliterated from driver.go.
* The session state `{AccessToken, RefreshToken, ExpiresAt}` becomes
  `CZKState`; time is an integer clock passed explicitly; the network is an
  oracle (`CallResult`) giving the transport outcome and decoded body; the
  network calls actually performed are returned as a `List NetCall` trace.
* `time.Parse("2006-01-02 15:04:05", s)` becomes `parseFixed`, following
  Go's parse loop for that layout (4-digit year, 2-digit zero-padded month /
  day / minute / second, 1-or-2-digit hour, range checks incl. leap years).
-/

/-- Generic JSON tree, the image of Go's `map[string]interface{}` decoding.
Numbers are rationals standing for Go `float64` values. -/
inductive Json where
  | null : Json
  | bool : Bool → Json
  | num : ℚ → Json
  | str : String → Json
  | arr : List Json → Json
  | obj : List (String × Json) → Json

/-- First-match lookup in an object's field list (Go map lookup; keys of a
decoded JSON object are unique, so first-match is exact). -/
def lookupField : List (String × Json) → String → Option Json
  | [], _ => none
  | (k, v) :: rest, key => if k = key then some v else lookupField rest key

/-- `m[key]` on a decoded Go map; a non-object has no fields. -/
def Json.get : Json → String → Option Json
  | .obj fields, key => lookupField fields key
  | _, _ => none

/-- Go type assertion `.(float64)`. -/
def Json.asNum : Json → Option ℚ
  | .num q => some q
  | _ => none

/-- Go type assertion `.(string)`. -/
def Json.asStr : Json → Option String
  | .str s => some s
  | _ => none

/-- Go type assertion `.(map[string]interface{})`. -/
def Json.asObj : Json → Option (List (String × Json))
  | .obj fields => some fields
  | _ => none

/-- Go's `int64(f)` on a `float64`: truncation toward zero.  On a rational
`num/den` in lowest terms with positive denominator, `Int.tdiv` (T-division,
rounding toward zero) computes exactly that: `goTrunc (-1/2) = 0` and
`goTrunc (-3/2) = -1`, as in Go. -/
def goTrunc (q : ℚ) : Int := Int.tdiv q.num (q.den : Int)

/-- Go's `fmt.Sprintf("%.0f", f)` rounding: nearest integer, ties to even. -/
def goRoundEven (q : ℚ) : Int :=
  let fl := ⌊q⌋
  let fr := q - fl
  if fr < 1/2 then fl
  else if 1/2 < fr then fl + 1
  else if fl % 2 = 0 then fl else fl + 1

/-- Go's `fmt.Sprintf("%.0f", f)` as a string (negative values rounding to
zero print as "-0" in Go). -/
def fmtF0 (q : ℚ) : String :=
  if q < 0 ∧ goRoundEven q = 0 then "-0" else toString (goRoundEven q)

/-! ## Envelope error checks, one per operation (transliterated) -/

/-- driver.go List, lines 87-93: error when `code` is numeric and its
truncation differs from 200; the message comes from `message` only. -/
def listCheckError (m : Json) : Option (Int × String) :=
  match (m.get "code").bind Json.asNum with
  | some code =>
      if goTrunc code ≠ 200 then
        some (goTrunc code,
          match (m.get "message").bind Json.asStr with
          | some msg => msg
          | none => "unknown error")
      else none
  | none => none

/-- driver.go Link, lines 198-204: field `status`; message from `message`. -/
def linkCheckError (m : Json) : Option (Int × String) :=
  match (m.get "status").bind Json.asNum with
  | some status =>
      if goTrunc status ≠ 200 then
        some (goTrunc status,
          match (m.get "message").bind Json.asStr with
          | some msg => msg
          | none => "unknown error")
      else none
  | none => none

/-- driver.go MakeDir, lines 426-434: field `code`; message from `msg`,
falling back to `message`. -/
def makeDirCheckError (m : Json) : Option (Int × String) :=
  match (m.get "code").bind Json.asNum with
  | some code =>
      if goTrunc code ≠ 200 then
        some (goTrunc code,
          match (m.get "msg").bind Json.asStr with
          | some msg => msg
          | none =>
            match (m.get "message").bind Json.asStr with
            | some msg => msg
            | none => "unknown error")
      else none
  | none => none

/-- driver.go Move, lines 502-511: field `code`; message from `message`,
falling back to `msg`. -/
def moveCheckError (m : Json) : Option (Int × String) :=
  match (m.get "code").bind Json.asNum with
  | some code =>
      if goTrunc code ≠ 200 then
        some (goTrunc code,
          match (m.get "message").bind Json.asStr with
          | some msg => msg
          | none =>
            match (m.get "msg").bind Json.asStr with
            | some msg => msg
            | none => "unknown error")
      else none
  | none => none

/-- driver.go Rename, lines 598-605: field `status` (not `code`); message
from `message` only. -/
def renameCheckError (m : Json) : Option (Int × String) :=
  match (m.get "status").bind Json.asNum with
  | some status =>
      if goTrunc status ≠ 200 then
        some (goTrunc status,
          match (m.get "message").bind Json.asStr with
          | some msg => msg
          | none => "unknown error")
      else none
  | none => none

/-- driver.go Remove, lines 663-671: field `code`; message from `msg` only. -/
def removeCheckError (m : Json) : Option (Int × String) :=
  match (m.get "code").bind Json.asNum with
  | some code =>
      if goTrunc code ≠ 200 then
        some (goTrunc code,
          match (m.get "msg").bind Json.asStr with
          | some msg => msg
          | none => "unknown error")
      else none
  | none => none

/-- driver.go Put first-upload phase, lines 738-748: field `code`; message
from `msg` only. -/
def putInitCheckError (m : Json) : Option (Int × String) :=
  match (m.get "code").bind Json.asNum with
  | some code =>
      if goTrunc code ≠ 200 then
        some (goTrunc code,
          match (m.get "msg").bind Json.asStr with
          | some msg => msg
          | none => "unknown error")
      else none
  | none => none

/-- driver.go Put ok-upload phase, lines 820-833: field `code`; message from
`msg`, falling back to `message`. -/
def putCompleteCheckError (m : Json) : Option (Int × String) :=
  match (m.get "code").bind Json.asNum with
  | some code =>
      if goTrunc code ≠ 200 then
        some (goTrunc code,
          match (m.get "msg").bind Json.asStr with
          | some msg => msg
          | none =>
            match (m.get "message").bind Json.asStr with
            | some msg => msg
            | none => "unknown error")
      else none
  | none => none

/-! ## Timestamps: Go `time.Parse("2006-01-02 15:04:05", s)` -/

/-- A wall-clock instant as parsed by Go for the fixed layout (always UTC). -/
structure DateTime where
  year : Nat
  month : Nat
  day : Nat
  hour : Nat
  minute : Nat
  second : Nat
deriving DecidableEq

def digitVal (c : Char) : Nat := c.toNat - 48

/-- Exactly four digits (Go's `stdLongYear`). -/
def parse4 : List Char → Option (Nat × List Char)
  | c1 :: c2 :: c3 :: c4 :: rest =>
      if c1.isDigit && c2.isDigit && c3.isDigit && c4.isDigit then
        some (1000 * digitVal c1 + 100 * digitVal c2 + 10 * digitVal c3
          + digitVal c4, rest)
      else none
  | _ => none

/-- Exactly two digits (Go's `getnum` with `fixed = true`, used by the
zero-padded layout elements `01`, `02`, `04`, `05`). -/
def parse2 : List Char → Option (Nat × List Char)
  | c1 :: c2 :: rest =>
      if c1.isDigit && c2.isDigit then
        some (10 * digitVal c1 + digitVal c2, rest)
      else none
  | _ => none

/-- One or two digits (Go's `getnum` with `fixed = false`, used by the `15`
hour element). -/
def parse1or2 : List Char → Option (Nat × List Char)
  | [] => none
  | [c1] => if c1.isDigit then some (digitVal c1, []) else none
  | c1 :: c2 :: rest =>
      if c1.isDigit then
        if c2.isDigit then some (10 * digitVal c1 + digitVal c2, rest)
        else some (digitVal c1, c2 :: rest)
      else none

/-- A literal layout character must match exactly. -/
def expectChar (c : Char) : List Char → Option (List Char)
  | [] => none
  | x :: rest => if x = c then some rest else none

/-- Gregorian leap year, as in Go's `isLeap`. -/
def isLeap (y : Nat) : Bool := y % 4 = 0 && (y % 100 ≠ 0 || y % 400 = 0)

/-- Days in a month, as in Go's `daysIn`. -/
def daysIn (m y : Nat) : Nat :=
  if m = 2 then (if isLeap y then 29 else 28)
  else if m = 4 ∨ m = 6 ∨ m = 9 ∨ m = 11 then 30
  else 31

/-- Go `time.Parse("2006-01-02 15:04:05", s)`: the layout is consumed left to
right, the whole input must be consumed, and Go's range checks apply
(hour < 24, minute < 60, second < 60, month 1..12, day valid for the
month/year). -/
def parseFixed (s : String) : Option DateTime := do
  let (year, r1) ← parse4 s.data
  let r2 ← expectChar '-' r1
  let (month, r3) ← parse2 r2
  let r4 ← expectChar '-' r3
  let (day, r5) ← parse2 r4
  let r6 ← expectChar ' ' r5
  let (hour, r7) ← parse1or2 r6
  if 24 ≤ hour then none else do
  let r8 ← expectChar ':' r7
  let (minute, r9) ← parse2 r8
  if 60 ≤ minute then none else do
  let r10 ← expectChar ':' r9
  let (second, r11) ← parse2 r10
  if 60 ≤ second then none else do
  if r11.isEmpty = false then none else do
  if month < 1 ∨ 12 < month then none else do
  if day < 1 ∨ daysIn month year < day then none else do
  pure ⟨year, month, day, hour, minute, second⟩

/-- driver.go List, lines 136-148: a non-empty timestamp string is parsed
with the fixed layout only; on failure, and for the empty string, the
current time is substituted. -/
def parseModified (modifiedStr : String) (now : DateTime) : DateTime :=
  if modifiedStr ≠ "" then
    match parseFixed modifiedStr with
    | some t => t
    | none => now
  else now

/-! ## Session manager: authenticate / refreshToken / refreshTokenIfNeeded -/

/-- The mutable session fields of the `CZK` struct (driver.go lines 22-29). -/
structure CZKState where
  accessToken : String
  refreshToken : String
  expiresAt : Int
deriving DecidableEq

/-- Outcome of one HTTP round trip as seen after the transport and decode
steps: resty error, non-200 HTTP status, `json.Unmarshal` failure, or the
decoded body. -/
inductive CallResult (α : Type) where
  | transportErr : CallResult α
  | httpErr : Nat → CallResult α
  | decodeErr : CallResult α
  | ok : α → CallResult α
deriving DecidableEq

/-- types.go `AuthResp.Data`. -/
structure AuthData where
  accessToken : String
  expiresIn : Int
  refreshToken : String
  tokenType : String
deriving DecidableEq

/-- types.go `AuthResp`. -/
structure AuthResp where
  data : AuthData
  message : String
  status : Int
deriving DecidableEq

/-- The refresh response as consumed by driver.go `refreshToken` (lines
349-379): `Data.AccessToken`, `Data.ExpiresIn`, `Data.RefreshToken` (read at
line 376; an absent JSON field decodes to the empty string), `Message`,
`Status`, `Success`. -/
structure RefreshData where
  accessToken : String
  expiresIn : Int
  refreshToken : String
  tokenType : String
deriving DecidableEq

structure RefreshResp where
  data : RefreshData
  message : String
  status : Int
  success : Bool
deriving DecidableEq

/-- A network call actually issued by the session manager. -/
inductive NetCall where
  | refreshCall : NetCall
  | authCall : NetCall
deriving DecidableEq

/-- driver.go `authenticate` (lines 232-295): credential check, transport and
HTTP-status checks, decode, then the envelope check — the status must be 200
unless the message is the documented success string — then both tokens must
be non-empty; on success all three session fields are stored, the expiry
being `now + expiresIn`. -/
def authenticate (apiKey apiSecret : String) (now : Int)
    (resp : CallResult AuthResp) : Except String CZKState :=
  if apiKey = "" ∨ apiSecret = "" then .error "API key or secret not set"
  else
    match resp with
    | .transportErr => .error "failed to send auth request"
    | .httpErr _ => .error "authentication failed with status"
    | .decodeErr => .error "failed to parse auth response"
    | .ok r =>
        if r.status ≠ 200 ∧ r.message ≠ "认证成功" then
          .error "authentication API error"
        else if r.data.accessToken = "" then
          .error "authentication succeeded but no access token returned"
        else if r.data.refreshToken = "" then
          .error "authentication succeeded but no refresh token returned"
        else
          .ok { accessToken := r.data.accessToken,
                refreshToken := r.data.refreshToken,
                expiresAt := now + r.data.expiresIn }

/-- Network calls performed by `authenticate`: none when a credential is
missing (it fails before sending), otherwise exactly one. -/
def authenticateNet (apiKey apiSecret : String) : List NetCall :=
  if apiKey = "" ∨ apiSecret = "" then [] else [NetCall.authCall]

/-- driver.go `refreshToken` (lines 310-385): fails immediately without a
stored refresh token; then transport / HTTP / decode checks; then the
envelope check (`Success` true and `Status` 200); on success stores the new
access token and `now + expiresIn`, and replaces the stored refresh token
only when the response carries a non-empty one. -/
def refreshTokenStep (st : CZKState) (now : Int)
    (resp : CallResult RefreshResp) : Except String CZKState :=
  if st.refreshToken = "" then
    .error "no refresh token available, need to re-authenticate"
  else
    match resp with
    | .transportErr => .error "failed to send refresh request"
    | .httpErr _ => .error "token refresh failed with status"
    | .decodeErr => .error "failed to parse refresh response"
    | .ok r =>
        if r.success = false ∨ r.status ≠ 200 then
          .error "token refresh API error"
        else
          .ok { accessToken := r.data.accessToken,
                refreshToken :=
                  if r.data.refreshToken ≠ "" then r.data.refreshToken
                  else st.refreshToken,
                expiresAt := now + r.data.expiresIn }

/-- Network calls performed by `refreshToken`: none without a stored refresh
token (it fails before sending), otherwise exactly one. -/
def refreshTokenNet (st : CZKState) : List NetCall :=
  if st.refreshToken = "" then [] else [NetCall.refreshCall]

/-- driver.go `refreshTokenIfNeeded` (lines 297-308): only when
`time.Now().After(d.ExpiresAt)` — strictly after — is a refresh attempted;
a refresh failure falls back to one `authenticate()` whose result is
returned; otherwise nothing happens.  The second component is the trace of
network calls performed. -/
def refreshTokenIfNeeded (st : CZKState) (now : Int)
    (refreshResp : CallResult RefreshResp) (apiKey apiSecret : String)
    (authResp : CallResult AuthResp) :
    Except String CZKState × List NetCall :=
  if st.expiresAt < now then
    match refreshTokenStep st now refreshResp with
    | .ok st1 => (.ok st1, refreshTokenNet st)
    | .error _ =>
        (authenticate apiKey apiSecret now authResp,
         refreshTokenNet st ++ authenticateNet apiKey apiSecret)
  else (.ok st, [])

/-! ## Object model mapper and the List decode phase -/

/-- The host's canonical object (`model.Object`) as built by this driver. -/
structure ObjectRec where
  id : String
  name : String
  size : Int
  modified : DateTime
  isFolder : Bool
deriving DecidableEq

/-- driver.go List, lines 102-158: one item of the `items` array.  A
non-object item is skipped (`none`); otherwise: `id` is the `%.0f` rendering
of a numeric `id` field (else empty), `name` a string field (else empty),
`size` the `int64` truncation of a numeric `size` field (else 0), `isFolder`
the equality of a string `type` field with "folder" (else false); the raw
timestamp comes from `created_at` for folders and `uploaded_at` for files,
and is parsed by `parseModified`. -/
def mapItem (itemData : Json) (now : DateTime) : Option ObjectRec :=
  match itemData.asObj with
  | none => none
  | some _ =>
      let id :=
        match (itemData.get "id").bind Json.asNum with
        | some itemId => fmtF0 itemId
        | none => ""
      let name :=
        match (itemData.get "name").bind Json.asStr with
        | some itemName => itemName
        | none => ""
      let size : Int :=
        match (itemData.get "size").bind Json.asNum with
        | some itemSize => goTrunc itemSize
        | none => 0
      let isFolder :=
        match (itemData.get "type").bind Json.asStr with
        | some itemType => itemType = "folder"
        | none => false
      let modifiedStr :=
        if isFolder then
          match (itemData.get "created_at").bind Json.asStr with
          | some createdAt => createdAt
          | none => ""
        else
          match (itemData.get "uploaded_at").bind Json.asStr with
          | some uploadedAt => uploadedAt
          | none => ""
      some { id := id, name := name, size := size,
             modified := parseModified modifiedStr now, isFolder := isFolder }

/-- Seconds.  `d.client.SetTimeout(30 * time.Second)` is the default used by
every non-upload call. -/
def defaultTimeout : Nat := 30

/-- `d.client.SetTimeout(10 * time.Minute)` set at the start of Put. -/
def uploadTimeout : Nat := 600

/-- The outcomes of each fallible step of Put that is not a decoded body:
the token refresh, `stream.CacheFullAndHash`, the stream rewind, and the two
multipart writer closes. -/
structure PutEnv where
  refreshOk : Bool
  hashOk : Bool
  seekOk : Bool
  initFormOk : Bool
  initCall : CallResult Json
  completeFormOk : Bool
  completeCall : CallResult Json

/-- driver.go Put, lines 751-768: `csrf_token` / `file_key` extraction from
the init response: empty unless `data` is an object carrying the key as a
string. -/
def putDataStr (body : Json) (key : String) : String :=
  match (body.get "data").bind Json.asObj with
  | some dataFields =>
      match (lookupField dataFields key).bind Json.asStr with
      | some s => s
      | none => ""
  | none => ""

/-- driver.go Put (lines 676-848), tracking the shared client timeout.  The
second component is the timeout in force when Put returns.  Transliterated
path by path: the refresh failure returns before the timeout is raised; the
hash, seek and init-form-close failures return after raising it (the source
restores the default on every later exit, including unconditionally right
after the complete call at line 801, but not on these three); every other
exit restores `defaultTimeout` first. -/
def put (env : PutEnv) (fileName : String) (fileSize : Int) (now : DateTime)
    (timeout0 : Nat) : Except String ObjectRec × Nat :=
  if env.refreshOk = false then (.error "failed to refresh token", timeout0)
  else
    -- d.client.SetTimeout(10 * time.Minute)
    if env.hashOk = false then
      (.error "failed to calculate file md5", uploadTimeout)
    else if env.seekOk = false then
      (.error "failed to seek file", uploadTimeout)
    else if env.initFormOk = false then
      (.error "failed to create init upload form", uploadTimeout)
    else
      match env.initCall with
      | .transportErr =>
          (.error "failed to send init upload request", defaultTimeout)
      | .httpErr _ =>
          (.error "failed to initialize upload with status", defaultTimeout)
      | .decodeErr =>
          (.error "failed to parse upload init response", defaultTimeout)
      | .ok initBody =>
          match putInitCheckError initBody with
          | some _ => (.error "init upload API error", defaultTimeout)
          | none =>
              let csrfToken := putDataStr initBody "csrf_token"
              let fileKey := putDataStr initBody "file_key"
              if csrfToken = "" ∨ fileKey = "" then
                (.error "missing required parameters from init upload response",
                 defaultTimeout)
              else if env.completeFormOk = false then
                (.error "failed to create complete upload form", defaultTimeout)
              else
                -- the default timeout is restored unconditionally here,
                -- before the complete call's result is inspected
                match env.completeCall with
                | .transportErr =>
                    (.error "failed to send complete upload request",
                     defaultTimeout)
                | .httpErr _ =>
                    (.error "failed to complete upload with status",
                     defaultTimeout)
                | .decodeErr =>
                    (.error "failed to parse upload complete response",
                     defaultTimeout)
                | .ok completeBody =>
                    match putCompleteCheckError completeBody with
                    | some _ =>
                        (.error "complete upload API error", defaultTimeout)
                    | none =>
                        (.ok { id := "", name := fileName, size := fileSize,
                               modified := now, isFolder := false },
                         defaultTimeout)

/-! ## Concrete inputs used by counterexamples and witnesses -/

/-- A session holding both tokens, expiring at time 100. -/
def stA : CZKState := ⟨"tokA", "tokR", 100⟩

/-- A decoded refresh response that succeeds and carries no new refresh
token. -/
def rR : RefreshResp := ⟨⟨"newAcc", 3600, "", "bearer"⟩, "ok", 200, true⟩

def rRespOk : CallResult RefreshResp := CallResult.ok rR

/-- A decoded authentication response that succeeds. -/
def rA : AuthResp := ⟨⟨"accT", 7200, "refT", "bearer"⟩, "ok", 200⟩

def aRespOk : CallResult AuthResp := CallResult.ok rA

/-- The envelope of the spec's own example, `{"code":404,"msg":"not found"}`. -/
def bodyC4 : Json := Json.obj [("code", Json.num 404), ("msg", Json.str "not found")]

/-- A body carrying an error under `code` only. -/
def bodyCode500 : Json := Json.obj [("code", Json.num 500)]

/-- A body carrying an error under `status` only. -/
def bodyStatus500 : Json := Json.obj [("status", Json.num 500)]

/-- A valid RFC 3339 timestamp, not in the fixed layout. -/
def rfc3339Input : String := "2025-06-29T15:37:01Z"

/-- A stand-in for the current wall-clock time. -/
def nowA : DateTime := ⟨2000, 1, 1, 0, 0, 0⟩

/-- A listing item of type folder that carries a numeric size field. -/
def folderItem : Json :=
  Json.obj [("type", Json.str "folder"), ("size", Json.num 500)]

/-- A Put run in which the hashing step fails. -/
def envHashFail : PutEnv :=
  ⟨true, false, true, true, CallResult.decodeErr, true, CallResult.decodeErr⟩

/-- A Put run in which the stream rewind fails. -/
def envSeekFail : PutEnv :=
  ⟨true, true, false, true, CallResult.decodeErr, true, CallResult.decodeErr⟩

/-- A Put run in which the init request fails at the transport layer. -/
def envInitTransportFail : PutEnv :=
  ⟨true, true, true, true, CallResult.transportErr, true, CallResult.decodeErr⟩

/-! ## C1 -/

/-- C1 counterexample.  The claim says that whenever the current time is at
or after `expiresAt`, `refreshTokenIfNeeded` attempts `refresh()`.  At
`now = expiresAt = 100` the code's strict `time.Now().After(d.ExpiresAt)`
test is false: no network call at all is made (empty trace) and the state is
returned unchanged, even though a working refresh oracle is available. -/
theorem c1_counterexample :
    stA.expiresAt = 100 ∧
    refreshTokenIfNeeded stA 100 rRespOk "k" "s" aRespOk =
      (Except.ok stA, ([] : List NetCall)) :=
  ⟨rfl, rfl⟩

/-- C1 amended: `refreshTokenIfNeeded` performs no network call and leaves
the session unchanged whenever the current time is at or before `expiresAt`;
a refresh is attempted (a refresh network call is issued whenever a refresh
token is held) exactly when the current time is strictly after `expiresAt`. -/
theorem c1_refresh_strictly_after :
    ∀ (st : CZKState) (now : Int) (rResp : CallResult RefreshResp)
      (k s : String) (aResp : CallResult AuthResp),
    (now ≤ st.expiresAt →
      refreshTokenIfNeeded st now rResp k s aResp = (Except.ok st, [])) ∧
    (st.expiresAt < now → st.refreshToken ≠ "" →
      NetCall.refreshCall ∈ (refreshTokenIfNeeded st now rResp k s aResp).2) := by
  intro st now rResp k s aResp
  constructor
  · intro h
    simp [refreshTokenIfNeeded, if_neg (not_lt.mpr h)]
  · intro h hr
    cases hstep : refreshTokenStep st now rResp with
    | ok st1 => simp [refreshTokenIfNeeded, if_pos h, hstep, refreshTokenNet, hr]
    | error e => simp [refreshTokenIfNeeded, if_pos h, hstep, refreshTokenNet, hr]

/-- C1 witness: at time 50, before the expiry 100, nothing happens. -/
theorem c1_witness :
    (50 : Int) ≤ stA.expiresAt ∧
    refreshTokenIfNeeded stA 50 rRespOk "k" "s" aRespOk =
      (Except.ok stA, []) :=
  ⟨by decide,
   (c1_refresh_strictly_after stA 50 rRespOk "k" "s" aRespOk).1 (by decide)⟩

/-! ## C2 -/

/-- C2: for an expired session, when the refresh step fails (for any reason,
including the absence of a stored refresh token) `refreshTokenIfNeeded`
returns exactly the result of one `authenticate` call — so it errors iff
that call errors — and at most one authentication call appears in the
trace; when the refresh step succeeds, no authentication call is made. -/
theorem c2_refresh_fallback :
    ∀ (st : CZKState) (now : Int) (rResp : CallResult RefreshResp)
      (k s : String) (aResp : CallResult AuthResp),
    st.expiresAt < now →
    (∀ e, refreshTokenStep st now rResp = Except.error e →
      refreshTokenIfNeeded st now rResp k s aResp =
        (authenticate k s now aResp,
         refreshTokenNet st ++ authenticateNet k s) ∧
      (refreshTokenNet st ++ authenticateNet k s).count NetCall.authCall ≤ 1 ∧
      (∀ e2, (refreshTokenIfNeeded st now rResp k s aResp).1 = Except.error e2 ↔
        authenticate k s now aResp = Except.error e2)) ∧
    (∀ st1, refreshTokenStep st now rResp = Except.ok st1 →
      refreshTokenIfNeeded st now rResp k s aResp = (Except.ok st1, refreshTokenNet st) ∧
      NetCall.authCall ∉ refreshTokenNet st) := by
  intro st now rResp k s aResp h
  constructor
  · intro e he
    refine ⟨by simp [refreshTokenIfNeeded, if_pos h, he], ?_, ?_⟩
    · simp only [refreshTokenNet, authenticateNet]
      split <;> split <;> simp
    · intro e2
      simp [refreshTokenIfNeeded, if_pos h, he]
  · intro st1 hst1
    refine ⟨by simp [refreshTokenIfNeeded, if_pos h, hst1], ?_⟩
    simp only [refreshTokenNet]
    split <;> simp

/-- C2 witness: session expired at 100, now 200, refresh fails at the
transport layer, authentication succeeds; the fallback result is exactly the
authenticate result. -/
theorem c2_witness :
    stA.expiresAt < (200 : Int) ∧
    refreshTokenStep stA 200 CallResult.transportErr =
      Except.error "failed to send refresh request" ∧
    refreshTokenIfNeeded stA 200 CallResult.transportErr "k" "s" aRespOk =
      (authenticate "k" "s" 200 aRespOk,
       refreshTokenNet stA ++ authenticateNet "k" "s") :=
  ⟨by decide, by rfl,
   ((c2_refresh_fallback stA 200 CallResult.transportErr "k" "s" aRespOk
      (by decide)).1 "failed to send refresh request" (by rfl)).1⟩

/-! ## C3 -/

/-- C3: after a decoded authentication response, the envelope is rejected
when the status differs from 200 unless the message is the documented
success string; an accepted envelope still fails when either returned token
is empty; otherwise both tokens are stored and the expiry becomes
`now + expiresIn`. -/
theorem c3_authenticate_envelope :
    ∀ (k s : String) (now : Int) (r : AuthResp),
    k ≠ "" → s ≠ "" →
    ((r.status ≠ 200 ∧ r.message ≠ "认证成功") →
      authenticate k s now (CallResult.ok r) =
        Except.error "authentication API error") ∧
    ((r.status = 200 ∨ r.message = "认证成功") → r.data.accessToken = "" →
      authenticate k s now (CallResult.ok r) =
        Except.error "authentication succeeded but no access token returned") ∧
    ((r.status = 200 ∨ r.message = "认证成功") → r.data.accessToken ≠ "" →
      r.data.refreshToken = "" →
      authenticate k s now (CallResult.ok r) =
        Except.error "authentication succeeded but no refresh token returned") ∧
    ((r.status = 200 ∨ r.message = "认证成功") → r.data.accessToken ≠ "" →
      r.data.refreshToken ≠ "" →
      authenticate k s now (CallResult.ok r) =
        Except.ok ⟨r.data.accessToken, r.data.refreshToken,
                   now + r.data.expiresIn⟩) := by
  intro k s now r hk hs
  refine ⟨?_, ?_, ?_, ?_⟩
  · intro hrej
    simp [authenticate, hk, hs, hrej]
  · intro hacc hat
    have hnrej : ¬(r.status ≠ 200 ∧ r.message ≠ "认证成功") := by
      rcases hacc with h1 | h1 <;> simp [h1]
    simp [authenticate, hk, hs, hnrej, hat]
  · intro hacc hat hrt
    have hnrej : ¬(r.status ≠ 200 ∧ r.message ≠ "认证成功") := by
      rcases hacc with h1 | h1 <;> simp [h1]
    simp [authenticate, hk, hs, hnrej, hat, hrt]
  · intro hacc hat hrt
    have hnrej : ¬(r.status ≠ 200 ∧ r.message ≠ "认证成功") := by
      rcases hacc with h1 | h1 <;> simp [h1]
    simp [authenticate, hk, hs, hnrej, hat, hrt]

/-- C3 witness: the successful response `rA` stores both tokens and the new
expiry 0 + 7200. -/
theorem c3_witness :
    ("k" : String) ≠ "" ∧
    authenticate "k" "s" 0 (CallResult.ok rA) =
      Except.ok ⟨rA.data.accessToken, rA.data.refreshToken,
                 0 + rA.data.expiresIn⟩ :=
  ⟨by decide,
   (c3_authenticate_envelope "k" "s" 0 rA (by decide) (by decide)).2.2.2
     (Or.inl (by decide)) (by decide) (by decide)⟩

/-! ## C9 -/

/-- C9: every successful refresh stores the response's access token and the
expiry `now + expiresIn`, and replaces the stored refresh token exactly when
the response carries a non-empty one — otherwise the old refresh token is
kept. -/
theorem c9_refresh_success_updates :
    ∀ (st : CZKState) (now : Int) (r : RefreshResp) (st1 : CZKState),
    refreshTokenStep st now (CallResult.ok r) = Except.ok st1 →
    st1.accessToken = r.data.accessToken ∧
    st1.expiresAt = now + r.data.expiresIn ∧
    st1.refreshToken =
      (if r.data.refreshToken = "" then st.refreshToken
       else r.data.refreshToken) := by
  intro st now r st1 h
  by_cases hrt : st.refreshToken = ""
  · simp [refreshTokenStep, hrt] at h
  · by_cases hfail : r.success = false ∨ r.status ≠ 200
    · simp [refreshTokenStep, hrt, hfail] at h
    · simp [refreshTokenStep, hrt, hfail] at h
      by_cases hnew : r.data.refreshToken = ""
      · simp [hnew] at h
        simp [← h, hnew]
      · simp [hnew] at h
        simp [← h, hnew]

/-- C9 witness: refreshing `stA` at time 50 with `rR`, which carries no new
refresh token, yields access token "newAcc", expiry 50 + 3600, and keeps the
old refresh token "tokR". -/
theorem c9_witness :
    (CZKState.mk "newAcc" "tokR" 3650).accessToken = rR.data.accessToken ∧
    (CZKState.mk "newAcc" "tokR" 3650).expiresAt = 50 + rR.data.expiresIn ∧
    (CZKState.mk "newAcc" "tokR" 3650).refreshToken =
      (if rR.data.refreshToken = "" then stA.refreshToken
       else rR.data.refreshToken) :=
  c9_refresh_success_updates stA 50 rR (CZKState.mk "newAcc" "tokR" 3650)
    (by rfl)

/-! ## C4 -/

/-- C4 counterexample.  The claim says the error message is taken from
`message` or, failing that, `msg`, so that for List the body
`{"code":404,"msg":"not found"}` yields the message "not found".  The List
check reads only `message`: on that body it produces "unknown error". -/
theorem c4_counterexample :
    listCheckError bodyC4 = some (404, "unknown error") ∧
    ("unknown error" : String) ≠ "not found" :=
  ⟨rfl, by decide⟩

/-- C4 amended: the message field consulted varies by operation.  For a body
whose `code` is numeric with truncation other than 200: List reads only
`message`; Remove reads only `msg`; MakeDir reads `msg` and then `message`;
Move reads `message` and then `msg`; in each case "unknown error" is the
fallback when the consulted fields are absent.  In particular List on
`{"code":404,"msg":"not found"}` reports "unknown error". -/
theorem c4_message_fields :
    ∀ (m : Json) (code : ℚ),
    (m.get "code").bind Json.asNum = some code → goTrunc code ≠ 200 →
    listCheckError m =
      some (goTrunc code, ((m.get "message").bind Json.asStr).getD "unknown error") ∧
    removeCheckError m =
      some (goTrunc code, ((m.get "msg").bind Json.asStr).getD "unknown error") ∧
    makeDirCheckError m =
      some (goTrunc code, ((m.get "msg").bind Json.asStr).getD
        (((m.get "message").bind Json.asStr).getD "unknown error")) ∧
    moveCheckError m =
      some (goTrunc code, ((m.get "message").bind Json.asStr).getD
        (((m.get "msg").bind Json.asStr).getD "unknown error")) := by
  intro m code h hne
  refine ⟨?_, ?_, ?_, ?_⟩
  · cases hmsg : (m.get "message").bind Json.asStr <;>
      simp [listCheckError, h, hne, hmsg]
  · cases hmsg : (m.get "msg").bind Json.asStr <;>
      simp [removeCheckError, h, hne, hmsg]
  · cases hmsg : (m.get "msg").bind Json.asStr <;>
      cases hmsg2 : (m.get "message").bind Json.asStr <;>
      simp [makeDirCheckError, h, hne, hmsg, hmsg2]
  · cases hmsg : (m.get "message").bind Json.asStr <;>
      cases hmsg2 : (m.get "msg").bind Json.asStr <;>
      simp [moveCheckError, h, hne, hmsg, hmsg2]

/-- C4 witness: the spec's example body, with its `msg` field, instantiates
the amended statement — Remove surfaces "not found", List does not. -/
theorem c4_witness :
    (bodyC4.get "code").bind Json.asNum = some 404 ∧
    listCheckError bodyC4 =
      some (goTrunc 404, ((bodyC4.get "message").bind Json.asStr).getD "unknown error") ∧
    removeCheckError bodyC4 =
      some (goTrunc 404, ((bodyC4.get "msg").bind Json.asStr).getD "unknown error") :=
  ⟨rfl,
   (c4_message_fields bodyC4 404 rfl (by decide)).1,
   (c4_message_fields bodyC4 404 rfl (by decide)).2.1⟩

/-! ## C7 -/

/-- C7 counterexample.  The claim says the rename operation's error
detection reads the `code` field.  A body whose `code` is 500 passes
Rename's check unflagged, while the same 500 under `status` trips it; List,
by contrast, flags the `code` 500. -/
theorem c7_counterexample :
    renameCheckError bodyCode500 = none ∧
    renameCheckError bodyStatus500 = some (500, "unknown error") ∧
    listCheckError bodyCode500 = some (500, "unknown error") :=
  ⟨rfl, rfl, rfl⟩

/-- C7 amended: the `code` family is list, create-folder, move, delete and
both upload phases; the `status` family is download-link and rename (with
auth and refresh reading the typed `status` field, see
`c3_authenticate_envelope`).  Each family truncates the floating-point value
and ignores the other family's field name entirely. -/
theorem c7_code_field_families :
    ∀ (m : Json) (q : ℚ),
    ((m.get "code").bind Json.asNum = some q → goTrunc q ≠ 200 →
      (∃ msg, listCheckError m = some (goTrunc q, msg)) ∧
      (∃ msg, makeDirCheckError m = some (goTrunc q, msg)) ∧
      (∃ msg, moveCheckError m = some (goTrunc q, msg)) ∧
      (∃ msg, removeCheckError m = some (goTrunc q, msg)) ∧
      (∃ msg, putInitCheckError m = some (goTrunc q, msg)) ∧
      (∃ msg, putCompleteCheckError m = some (goTrunc q, msg))) ∧
    ((m.get "status").bind Json.asNum = some q → goTrunc q ≠ 200 →
      (∃ msg, renameCheckError m = some (goTrunc q, msg)) ∧
      (∃ msg, linkCheckError m = some (goTrunc q, msg))) ∧
    ((m.get "status").bind Json.asNum = none →
      renameCheckError m = none ∧ linkCheckError m = none) ∧
    ((m.get "code").bind Json.asNum = none →
      listCheckError m = none ∧ makeDirCheckError m = none ∧
      moveCheckError m = none ∧ removeCheckError m = none ∧
      putInitCheckError m = none ∧ putCompleteCheckError m = none) := by
  intro m q
  refine ⟨?_, ?_, ?_, ?_⟩
  · intro h hne
    exact ⟨by simp [listCheckError, h, hne],
           by simp [makeDirCheckError, h, hne],
           by simp [moveCheckError, h, hne],
           by simp [removeCheckError, h, hne],
           by simp [putInitCheckError, h, hne],
           by simp [putCompleteCheckError, h, hne]⟩
  · intro h hne
    exact ⟨by simp [renameCheckError, h, hne],
           by simp [linkCheckError, h, hne]⟩
  · intro h
    exact ⟨by simp [renameCheckError, h], by simp [linkCheckError, h]⟩
  · intro h
    exact ⟨by simp [listCheckError, h], by simp [makeDirCheckError, h],
           by simp [moveCheckError, h], by simp [removeCheckError, h],
           by simp [putInitCheckError, h], by simp [putCompleteCheckError, h]⟩

/-- C7 witness: on the body `{"code":500}` every `code`-family check flags
the error and Rename's check stays silent. -/
theorem c7_witness :
    (∃ msg, listCheckError bodyCode500 = some (goTrunc 500, msg)) ∧
    (∃ msg, removeCheckError bodyCode500 = some (goTrunc 500, msg)) ∧
    renameCheckError bodyCode500 = none ∧
    linkCheckError bodyCode500 = none :=
  ⟨((c7_code_field_families bodyCode500 500).1 rfl (by decide)).1,
   ((c7_code_field_families bodyCode500 500).1 rfl (by decide)).2.2.2.1,
   ((c7_code_field_families bodyCode500 500).2.2.1 rfl).1,
   ((c7_code_field_families bodyCode500 500).2.2.1 rfl).2⟩

/-! ## C5 -/

/-- C5 counterexample.  The claim says timestamp parsing tries RFC 3339
first, so the valid RFC 3339 input "2025-06-29T15:37:01Z" would parse to
that instant.  The code tries only the fixed layout, which rejects it (the
separator is `T`, not a space), and substitutes the current time. -/
theorem c5_counterexample :
    parseFixed rfc3339Input = none ∧
    parseModified rfc3339Input nowA = nowA ∧
    nowA ≠ DateTime.mk 2025 6 29 15 37 1 :=
  ⟨rfl, rfl, by decide⟩

/-- C5 amended: the only layout tried is the fixed "YYYY-MM-DD HH:MM:SS"
pattern (RFC 3339 inputs therefore fall back like any unparseable string);
"2025-06-29 15:37:01" parses to exactly that instant, and an empty or
unparseable field substitutes the current time instead of failing. -/
theorem c5_fixed_pattern_only :
    parseFixed "2025-06-29 15:37:01" = some (DateTime.mk 2025 6 29 15 37 1) ∧
    (∀ s now, parseFixed s = none → parseModified s now = now) ∧
    (∀ now, parseModified "" now = now) := by
  refine ⟨by decide, ?_, fun now => rfl⟩
  intro s now h
  unfold parseModified
  split
  · rw [h]
  · rfl

/-- C5 witness: the unparseable input "not-a-date" substitutes the current
time. -/
theorem c5_witness :
    parseFixed "not-a-date" = none ∧
    parseModified "not-a-date" nowA = nowA :=
  ⟨rfl, c5_fixed_pattern_only.2.1 "not-a-date" nowA rfl⟩

/-! ## C6 -/

/-- C6 counterexample.  The claim says a listing item with type "folder"
maps to size 0 regardless of any numeric size field.  The mapper takes the
size from the `size` field even for folders: the folder item carrying
`size: 500` maps to size 500. -/
theorem c6_counterexample :
    mapItem folderItem nowA = some (ObjectRec.mk "" "" 500 nowA true) ∧
    (500 : Int) ≠ 0 :=
  ⟨rfl, by decide⟩

/-- C6 amended: an item whose `type` field is "folder" maps to an object
with `isFolder = true`, but its size is the truncation of the numeric
`size` field whenever one is present — it is 0 only when the field is
absent or non-numeric. -/
theorem c6_folder_mapping :
    ∀ (j : Json) (now : DateTime),
    (j.get "type").bind Json.asStr = some "folder" →
    ∃ o, mapItem j now = some o ∧ o.isFolder = true ∧
      o.size = ((j.get "size").bind Json.asNum).elim 0 goTrunc := by
  intro j now h
  cases j with
  | obj fields =>
      refine ⟨_, rfl, ?_, ?_⟩
      · simp [mapItem, Json.asObj, h]
      · simp only [mapItem, Json.asObj]
        cases hn : ((Json.obj fields).get "size").bind Json.asNum <;>
          simp [hn]
  | null => simp [Json.get] at h
  | bool b => simp [Json.get] at h
  | num q => simp [Json.get] at h
  | str s => simp [Json.get] at h
  | arr xs => simp [Json.get] at h

/-- C6 witness: the folder item with `size: 500` instantiates the amended
statement. -/
theorem c6_witness :
    ∃ o, mapItem folderItem nowA = some o ∧ o.isFolder = true ∧
      o.size = ((folderItem.get "size").bind Json.asNum).elim 0 goTrunc :=
  c6_folder_mapping folderItem nowA rfl

/-! ## C10 -/

/-- C8: the spec requires the extended upload timeout to be restored to the
default on every exit path of Put, and the source restores it on every exit
after the init request is sent — but the hashing-failure and rewind-failure
exits return with the extended 10-minute timeout still in force, a slip in
the code.  The transport-failure exit, by contrast, does restore it. -/
theorem c8_put_timeout_not_restored :
    put envHashFail "f.bin" 10 nowA defaultTimeout =
      (Except.error "failed to calculate file md5", uploadTimeout) ∧
    put envSeekFail "f.bin" 10 nowA defaultTimeout =
      (Except.error "failed to seek file", uploadTimeout) ∧
    put envInitTransportFail "f.bin" 10 nowA defaultTimeout =
      (Except.error "failed to send init upload request", defaultTimeout) ∧
    uploadTimeout ≠ defaultTimeout :=
  ⟨rfl, rfl, rfl, by decide⟩
